import Mathlib

/-!
Shallow embedding of the Search/Edit flow of the clinic record-keeping app
(source: src/pages/SearchPatient.tsx).

The component state (React useState hooks) is modelled as an explicit
`Machine` record, threaded through the event handlers.  The Firestore
"patients" collection is a list of documents, each a store-assigned id
plus the stored field map.  The live listener registry of the store is
modelled as the list `activeSubs` of currently active subscriptions;
the component additionally keeps `unsubscribeSnapshot`, the handle of the
subscription it would cancel (the code never nulls this handle out, it
only replaces it).  A JavaScript closure captures the bindings of the
render in which it was created, so each subscription records the value of
the `editMode` binding at the moment `onSnapshot` was called
(`capturedEditMode`); the snapshot callback at line 104 reads that
captured value, not the current one.

Side effects (toasts, the Firestore query, subscribe/unsubscribe calls
and the update write) are returned as an ordered event trace alongside
the new state, in the order the corresponding calls occur in the source.
-/

/-- The `Patient` type of the source (SearchPatient.tsx lines 19-29):
the store-assigned document id plus the stored fields. -/
structure Patient where
  id : String
  name : String
  age : String
  bloodPressure : String
  disease : String
  prescription : String
  createdAt : String
  doctorId : String
  lastVisitDate : String
deriving Repr, DecidableEq

/-- The field map stored in a "patients" document: `Omit<Patient, "id">`,
what `snapshot.data()` returns. -/
structure PatientData where
  name : String
  age : String
  bloodPressure : String
  disease : String
  prescription : String
  createdAt : String
  doctorId : String
  lastVisitDate : String
deriving Repr, DecidableEq

/-- Rebuild the flat `Patient` value `{ id: foundDocId, ...data }`
(line 102). -/
def PatientData.withId (d : PatientData) (i : String) : Patient :=
  { id := i, name := d.name, age := d.age, bloodPressure := d.bloodPressure,
    disease := d.disease, prescription := d.prescription,
    createdAt := d.createdAt, doctorId := d.doctorId,
    lastVisitDate := d.lastVisitDate }

/-- A document of the Firestore "patients" collection: the store-assigned
document id (`__name__`) and the stored fields. -/
structure StoreDoc where
  docId : String
  data : PatientData
deriving Repr, DecidableEq

/-- The `updateData` state, of TypeScript type `Partial<Patient>`
(line 43): every field optional, initially `{}`. -/
structure UpdateData where
  id : Option String := none
  name : Option String := none
  age : Option String := none
  bloodPressure : Option String := none
  disease : Option String := none
  prescription : Option String := none
  createdAt : Option String := none
  doctorId : Option String := none
  lastVisitDate : Option String := none
deriving Repr, DecidableEq

/-- The object `{ ...data }` built by the snapshot callback (line 105):
all stored fields present, no `id` key (the snapshot data omits it). -/
def UpdateData.ofData (d : PatientData) : UpdateData :=
  { id := none, name := some d.name, age := some d.age,
    bloodPressure := some d.bloodPressure, disease := some d.disease,
    prescription := some d.prescription, createdAt := some d.createdAt,
    doctorId := some d.doctorId, lastVisitDate := some d.lastVisitDate }

/-- The object `{ ...patient }` built by `toggleEditMode` (line 130):
every field of the flat `Patient`, including `id`, present. -/
def UpdateData.ofPatient (p : Patient) : UpdateData :=
  { id := some p.id, name := some p.name, age := some p.age,
    bloodPressure := some p.bloodPressure, disease := some p.disease,
    prescription := some p.prescription, createdAt := some p.createdAt,
    doctorId := some p.doctorId, lastVisitDate := some p.lastVisitDate }

/-- One live `onSnapshot` listener.  `sid` is the registry handle,
`docId` the watched document, `capturedEditMode` the value of the
`editMode` binding captured by the callback closure at subscription
time (line 104 reads this captured binding). -/
structure Subscription where
  sid : Nat
  docId : String
  capturedEditMode : Bool
deriving Repr, DecidableEq

/-- Externally observable effects of one handler invocation, in call
order. -/
inductive Event where
  | toast (title : String) (description : String)
  | queryIssued (doctorId : String) (docId : String)
  | unsubscribed (sid : Nat)
  | subscribed (sid : Nat) (docId : String)
  | updateIssued (docId : String) (fields : UpdateData)
deriving Repr, DecidableEq

/-- The component state of `SearchPatient`, together with the modelled
store (the "patients" collection) and its live-listener registry. -/
structure Machine where
  patient : Option Patient
  editMode : Bool
  updateData : UpdateData
  unsubscribeSnapshot : Option Nat
  activeSubs : List Subscription
  nextSid : Nat
  store : List StoreDoc
  isLoading : Bool
deriving Repr, DecidableEq

/-- JavaScript String.prototype.trim, used at line 50 as
`patientId.trim()`: strip leading and trailing whitespace characters
(space, tab, carriage return, line feed — `Char.isWhitespace`). -/
def jsTrim (s : String) : String :=
  String.mk (((s.data.dropWhile Char.isWhitespace).reverse.dropWhile
    Char.isWhitespace).reverse)

/-- The Firestore query of lines 73-77:
`where("doctorId", "==", currentUser.uid)` and
`where("__name__", "==", patientId)`. -/
def queryPatients (store : List StoreDoc) (uid docId : String) : List StoreDoc :=
  store.filter (fun d => d.data.doctorId == uid && d.docId == docId)

/-- Effect of calling the stored unsubscribe handle, if any: the matching
listener is removed from the live registry (a second call on an
already-removed listener is a no-op). -/
def cancelSub (subs : List Subscription) (h : Option Nat) : List Subscription :=
  match h with
  | none => subs
  | some sid => subs.filter (fun s => s.sid != sid)

/-- Trace contribution of `if (unsubscribeSnapshot) unsubscribeSnapshot()`. -/
def cancelEvents (h : Option Nat) : List Event :=
  match h with
  | none => []
  | some sid => [Event.unsubscribed sid]

/-- The `handleSearch` handler (lines 49-123).  `patientId` is the current
input value, `currentUser` the auth context user (its uid) or `none`.
Returns the new state and the trace of effects in source order:
validation short-circuits before any store access; otherwise the query is
issued first, then (not-found) toast / clear / cancel, or (found) cancel
then subscribe. -/
def handleSearch (m : Machine) (patientId : String) (currentUser : Option String) :
    Machine × List Event :=
  if jsTrim patientId = "" then
    (m, [Event.toast "Error" "Please enter a patient ID"])
  else
    match currentUser with
    | none => (m, [Event.toast "Error" "You must be logged in to search for patients"])
    | some uid =>
      match queryPatients m.store uid patientId with
      | [] =>
        ({ m with patient := none,
                  activeSubs := cancelSub m.activeSubs m.unsubscribeSnapshot,
                  isLoading := false },
         [Event.queryIssued uid patientId,
          Event.toast "Not found" "No patient found with that ID"]
           ++ cancelEvents m.unsubscribeSnapshot)
      | d :: _ =>
        ({ m with activeSubs :=
                    cancelSub m.activeSubs m.unsubscribeSnapshot
                      ++ [⟨m.nextSid, d.docId, m.editMode⟩],
                  unsubscribeSnapshot := some m.nextSid,
                  nextSid := m.nextSid + 1,
                  isLoading := false },
         [Event.queryIssued uid patientId]
           ++ cancelEvents m.unsubscribeSnapshot
           ++ [Event.subscribed m.nextSid d.docId])

/-- Delivery of one snapshot to listener `sid` (the callback of lines
99-110): if the watched document exists, replace `patient` with
`{ id: foundDocId, ...data }` and, only if the captured `editMode`
binding was false, replace `updateData` with `{ ...data }`; if the
document no longer exists, clear `patient`. -/
def deliverSnapshot (m : Machine) (sid : Nat) : Machine :=
  match m.activeSubs.find? (fun s => s.sid == sid) with
  | none => m
  | some sub =>
    match m.store.find? (fun x => x.docId == sub.docId) with
    | some d =>
      { m with patient := some (d.data.withId sub.docId),
               updateData :=
                 if sub.capturedEditMode then m.updateData
                 else UpdateData.ofData d.data }
    | none => { m with patient := none }

/-- The `toggleEditMode` handler (lines 126-132): flip the flag; if the
pre-toggle flag was on (turning edit off) and a patient is resolved,
reset the draft to `{ ...patient }`. -/
def toggleEditMode (m : Machine) : Machine :=
  { m with editMode := !m.editMode,
           updateData :=
             match m.patient with
             | some p => if m.editMode then UpdateData.ofPatient p else m.updateData
             | none => m.updateData }

/-- Overwrite one stored field when the update payload carries it. -/
def applyField (cur : String) (upd : Option String) : String :=
  upd.getD cur

/-- Firestore `updateDoc` merge of the payload into the named document:
each field present in the payload overwrites the stored field.  (A stray
`id` key in the payload has no counterpart among the stored fields of the
modelled schema and is not represented in the stored map.) -/
def applyUpdate (store : List StoreDoc) (docId : String) (u : UpdateData) :
    List StoreDoc :=
  store.map fun d =>
    if d.docId == docId then
      { d with data :=
        { name := applyField d.data.name u.name,
          age := applyField d.data.age u.age,
          bloodPressure := applyField d.data.bloodPressure u.bloodPressure,
          disease := applyField d.data.disease u.disease,
          prescription := applyField d.data.prescription u.prescription,
          createdAt := applyField d.data.createdAt u.createdAt,
          doctorId := applyField d.data.doctorId u.doctorId,
          lastVisitDate := applyField d.data.lastVisitDate u.lastVisitDate } }
    else d

/-- The `handleUpdatePatient` handler (lines 142-165).  `now` is the
ISO string of the submission instant; `storeOk` tells whether the
`updateDoc` call succeeds or throws.  With no resolved patient the
handler returns at line 144 before any effect.  The write payload is
`{ ...updateData, lastVisitDate: now }`; on success the store is
updated, a success toast shown and edit mode exited; on failure an error
toast is shown and the local state is untouched. -/
def handleUpdatePatient (m : Machine) (now : String) (storeOk : Bool) :
    Machine × List Event :=
  match m.patient with
  | none => (m, [])
  | some p =>
    let payload : UpdateData := { m.updateData with lastVisitDate := some now }
    if storeOk then
      ({ m with store := applyUpdate m.store p.id payload, editMode := false },
       [Event.updateIssued p.id payload,
        Event.toast "Success" "Patient information updated successfully!"])
    else
      (m, [Event.updateIssued p.id payload,
           Event.toast "Error" "Failed to update patient information"])

/-! Concrete states used by witnesses and counterexamples. -/

/-- Sample stored fields of a record owned by doctor D1. -/
def sampleData : PatientData :=
  { name := "A", age := "30", bloodPressure := "120", disease := "flu",
    prescription := "rest", createdAt := "2024-01-01", doctorId := "D1",
    lastVisitDate := "2024-01-02" }

/-- The same record after a remote edit changed the name. -/
def sampleData2 : PatientData := { sampleData with name := "B" }

/-- Component state right after mount: no record resolved, no listener,
store holding one record P123 owned by D1. -/
def mFresh : Machine :=
  { patient := none, editMode := false, updateData := {},
    unsubscribeSnapshot := none, activeSubs := [], nextSid := 0,
    store := [⟨"P123", sampleData⟩], isLoading := false }

/-- State reached from `mFresh` by a successful search for P123 as D1
followed by the initial snapshot delivery: listener 0 watches P123 and
captured `editMode = false`. -/
def mSubbed : Machine :=
  { patient := some (sampleData.withId "P123"), editMode := false,
    updateData := UpdateData.ofData sampleData,
    unsubscribeSnapshot := some 0, activeSubs := [⟨0, "P123", false⟩],
    nextSid := 1, store := [⟨"P123", sampleData⟩], isLoading := false }

/-- `mSubbed` after the user turned edit mode on and the remote record
then changed to `sampleData2`; listener 0 still holds the edit flag it
captured when it was created (false). -/
def mStale : Machine :=
  { toggleEditMode mSubbed with store := [⟨"P123", sampleData2⟩] }

/-- Sanity: `mSubbed` is reachable by running the handlers from `mFresh`. -/
theorem mSubbed_reachable :
    deliverSnapshot (handleSearch mFresh "P123" (some "D1")).1 0 = mSubbed := by
  decide

/-! Shared helper lemmas. -/

/-- If every live listener is the one the stored handle controls, calling
the handle leaves no live listener. -/
theorem cancelSub_owned_eq_nil (subs : List Subscription) (h : Option Nat)
    (hown : ∀ s ∈ subs, h = some s.sid) :
    cancelSub subs h = [] := by
  cases h with
  | none =>
    cases subs with
    | nil => rfl
    | cons s rest => exact absurd (hown s (by simp)) (by simp)
  | some sid =>
    apply List.filter_eq_nil_iff.mpr
    intro s hs
    have := hown s hs
    simp at this
    simp [this]

/-! Claim theorems. -/

/-- Claim C1: with a non-empty identifier and a present doctor identity,
the store query keeps exactly the documents whose owning-doctor equals
the acting doctor and whose store-assigned id equals the identifier; in
particular, when every document carrying the identifier belongs to a
different doctor, the query is empty and the flow behaves as not-found
(no record held, not-found toast shown). -/
theorem C1_query_scoped_to_doctor (m : Machine) (pid uid : String)
    (hpid : jsTrim pid ≠ "") :
    (∀ d, d ∈ queryPatients m.store uid pid ↔
       d ∈ m.store ∧ d.data.doctorId = uid ∧ d.docId = pid) ∧
    ((∀ d ∈ m.store, d.docId = pid → d.data.doctorId ≠ uid) →
      queryPatients m.store uid pid = [] ∧
      (handleSearch m pid (some uid)).1.patient = none ∧
      Event.toast "Not found" "No patient found with that ID" ∈
        (handleSearch m pid (some uid)).2) := by
  constructor
  · intro d
    simp [queryPatients, List.mem_filter, and_assoc]
  · intro hscope
    have hq : queryPatients m.store uid pid = [] := by
      apply List.filter_eq_nil_iff.mpr
      intro d hd
      simp only [Bool.and_eq_true, beq_iff_eq, not_and]
      intro hdoc hid
      exact hscope d hd hid hdoc
    refine ⟨hq, ?_, ?_⟩ <;> simp [handleSearch, if_neg hpid, hq]

/-- Witness for C1: searching P123 as doctor D2 while the only P123
record is owned by D1 resolves no record. -/
theorem C1_query_scoped_to_doctor_witness :
    jsTrim "P123" ≠ "" ∧
    (∀ d ∈ mFresh.store, d.docId = "P123" → d.data.doctorId ≠ "D2") ∧
    (handleSearch mFresh "P123" (some "D2")).1.patient = none :=
  ⟨by decide, by decide,
    ((C1_query_scoped_to_doctor mFresh "P123" "D2" (by decide)).2 (by decide)).2.1⟩

/-- Claim C2: an empty or whitespace-only identifier, or an absent
doctor identity, short-circuits with a validation toast: the state is
unchanged, no query event occurs, and the trace is exactly one of the
two error toasts. -/
theorem C2_validation_short_circuits (m : Machine) (pid : String) (u : Option String)
    (h : jsTrim pid = "" ∨ u = none) :
    (handleSearch m pid u).1 = m ∧
    (∀ uid did, Event.queryIssued uid did ∉ (handleSearch m pid u).2) ∧
    ((handleSearch m pid u).2 = [Event.toast "Error" "Please enter a patient ID"] ∨
     (handleSearch m pid u).2 =
       [Event.toast "Error" "You must be logged in to search for patients"]) := by
  rcases h with h | h
  · simp [handleSearch, h]
  · subst h
    by_cases ht : jsTrim pid = "" <;> simp [handleSearch, ht]

/-- Witness for C2: a whitespace-only identifier leaves the state alone
and produces only the validation toast. -/
theorem C2_validation_short_circuits_witness :
    jsTrim "   " = "" ∧
    (handleSearch mSubbed "   " (some "D1")).1 = mSubbed :=
  ⟨by decide,
    (C2_validation_short_circuits mSubbed "   " (some "D1") (Or.inl (by decide))).1⟩

/-- Claim C3: whenever a record is resolved, the update payload handed to
the store is the draft with its last-visit timestamp overwritten by the
submission time, whatever the draft held (in particular any
lastVisitDate value in the draft is discarded). -/
theorem C3_lastVisit_stamped (m : Machine) (p : Patient) (now : String) (ok : Bool)
    (hp : m.patient = some p) :
    (handleUpdatePatient m now ok).2.head? =
      some (Event.updateIssued p.id { m.updateData with lastVisitDate := some now }) ∧
    ({ m.updateData with lastVisitDate := some now } : UpdateData).lastVisitDate
      = some now := by
  cases ok <;> simp [handleUpdatePatient, hp]

/-- Witness for C3: submitting from a state whose draft carries a stale
lastVisitDate issues a payload stamped with the submission time. -/
theorem C3_lastVisit_stamped_witness :
    mStale.patient = some (sampleData.withId "P123") ∧
    (handleUpdatePatient mStale "2024-06-01" true).2.head? =
      some (Event.updateIssued "P123"
        { UpdateData.ofData sampleData with
            lastVisitDate := some "2024-06-01" }) :=
  ⟨by decide,
    by
      rw [(C3_lastVisit_stamped mStale (sampleData.withId "P123") "2024-06-01" true
        (by decide)).1]
      decide⟩

/-- Claim C10: submitting while no record is resolved is a complete
no-op: no event at all (no write, no toast) and the state is returned
untouched. -/
theorem C10_submit_without_record_is_noop (m : Machine) (now : String) (ok : Bool)
    (hp : m.patient = none) :
    handleUpdatePatient m now ok = (m, []) := by
  simp [handleUpdatePatient, hp]

/-- Witness for C10: submitting from the freshly mounted state does
nothing. -/
theorem C10_submit_without_record_is_noop_witness :
    mFresh.patient = none ∧ handleUpdatePatient mFresh "2024-06-01" true = (mFresh, []) :=
  ⟨rfl, C10_submit_without_record_is_noop mFresh "2024-06-01" true rfl⟩

/-- Claim C4: every successful resolve tears down the previously active
subscription and leaves exactly one live subscription, bound to the
resolved document (whose id is the searched identifier).  The two list
hypotheses are the reachable-state invariants that every live listener
is the one the stored handle controls and that listener ids below
`nextSid` are the only ones ever issued. -/
theorem C4_single_active_subscription (m : Machine) (pid uid : String)
    (hpid : jsTrim pid ≠ "")
    (hq : queryPatients m.store uid pid ≠ [])
    (hown : ∀ s ∈ m.activeSubs, m.unsubscribeSnapshot = some s.sid)
    (hfresh : ∀ s ∈ m.activeSubs, s.sid < m.nextSid) :
    ∃ d rest, queryPatients m.store uid pid = d :: rest ∧ d.docId = pid ∧
      (handleSearch m pid (some uid)).1.activeSubs =
        [⟨m.nextSid, d.docId, m.editMode⟩] ∧
      ∀ s ∈ m.activeSubs, s ∉ (handleSearch m pid (some uid)).1.activeSubs := by
  obtain ⟨d, rest, hq'⟩ : ∃ d rest, queryPatients m.store uid pid = d :: rest := by
    cases hc : queryPatients m.store uid pid with
    | nil => exact absurd hc hq
    | cons d rest => exact ⟨d, rest, rfl⟩
  have hdid : d.docId = pid := by
    have hd : d ∈ queryPatients m.store uid pid := by simp [hq']
    simp only [queryPatients, List.mem_filter, Bool.and_eq_true, beq_iff_eq] at hd
    exact hd.2.2
  refine ⟨d, rest, hq', hdid, ?_, ?_⟩
  · simp [handleSearch, if_neg hpid, hq', cancelSub_owned_eq_nil m.activeSubs
      m.unsubscribeSnapshot hown]
  · intro s hs hmem
    simp [handleSearch, if_neg hpid, hq', cancelSub_owned_eq_nil m.activeSubs
      m.unsubscribeSnapshot hown] at hmem
    have := hfresh s hs
    rw [hmem] at this
    exact absurd this (by simp)

/-- Witness for C4: re-searching P123 from the subscribed state replaces
listener 0 by the single fresh listener 1 on P123. -/
theorem C4_single_active_subscription_witness :
    queryPatients mSubbed.store "D1" "P123" ≠ [] ∧
    (∀ s ∈ mSubbed.activeSubs, mSubbed.unsubscribeSnapshot = some s.sid) ∧
    (∃ d rest, queryPatients mSubbed.store "D1" "P123" = d :: rest ∧ d.docId = "P123" ∧
      (handleSearch mSubbed "P123" (some "D1")).1.activeSubs =
        [⟨mSubbed.nextSid, d.docId, mSubbed.editMode⟩] ∧
      ∀ s ∈ mSubbed.activeSubs,
        s ∉ (handleSearch mSubbed "P123" (some "D1")).1.activeSubs) :=
  ⟨by decide, by decide,
    C4_single_active_subscription mSubbed "P123" "D1"
      (by decide) (by decide) (by decide) (by decide)⟩

/-- Counterexample to claim C5 as stated: from a state with a live
previous subscription, a successful resolve emits the store query
FIRST and only then the unsubscribe; the teardown does not precede the
query. -/
theorem C5_counterexample :
    mSubbed.activeSubs ≠ [] ∧
    (handleSearch mSubbed "P123" (some "D1")).2 =
      [Event.queryIssued "D1" "P123", Event.unsubscribed 0,
       Event.subscribed 1 "P123"] := by
  exact ⟨by decide, by decide⟩

/-- Claim C5 amended: in a resolve call that finds a match while a
previous subscription handle is held, the previous subscription is
cancelled after the store query is issued and before the new
subscription is established — the trace is exactly query, unsubscribe,
subscribe. -/
theorem C5_teardown_before_resubscribe (m : Machine) (pid uid : String) (sid : Nat)
    (hpid : jsTrim pid ≠ "")
    (hh : m.unsubscribeSnapshot = some sid)
    (hq : queryPatients m.store uid pid ≠ []) :
    ∃ d rest, queryPatients m.store uid pid = d :: rest ∧
      (handleSearch m pid (some uid)).2 =
        [Event.queryIssued uid pid, Event.unsubscribed sid,
         Event.subscribed m.nextSid d.docId] := by
  obtain ⟨d, rest, hq'⟩ : ∃ d rest, queryPatients m.store uid pid = d :: rest := by
    cases hc : queryPatients m.store uid pid with
    | nil => exact absurd hc hq
    | cons d rest => exact ⟨d, rest, rfl⟩
  exact ⟨d, rest, hq', by simp [handleSearch, if_neg hpid, hq', hh, cancelEvents]⟩

/-- Witness for the amended C5: the concrete trace of the re-search from
the subscribed state. -/
theorem C5_teardown_before_resubscribe_witness :
    mSubbed.unsubscribeSnapshot = some 0 ∧
    (∃ d rest, queryPatients mSubbed.store "D1" "P123" = d :: rest ∧
      (handleSearch mSubbed "P123" (some "D1")).2 =
        [Event.queryIssued "D1" "P123", Event.unsubscribed 0,
         Event.subscribed mSubbed.nextSid d.docId]) :=
  ⟨rfl, C5_teardown_before_resubscribe mSubbed "P123" "D1" 0
    (by decide) rfl (by decide)⟩

/-- Counterexample to claim C6 as stated: in `mStale` edit mode is ON at
the moment the snapshot is delivered, yet the delivery overwrites the
draft with the new remote values, because the callback closure reads the
edit-mode binding it captured when the subscription was created (when
edit mode was off), not the edit-mode value at delivery time. -/
theorem C6_counterexample :
    mStale.editMode = true ∧
    mStale.updateData ≠ UpdateData.ofData sampleData2 ∧
    (deliverSnapshot mStale 0).updateData = UpdateData.ofData sampleData2 ∧
    (deliverSnapshot mStale 0).editMode = true := by
  exact ⟨by decide, by decide, by decide, by decide⟩

/-- Claim C6 amended: on every delivered change the in-memory record is
replaced with the new snapshot, and the draft is overwritten with the
new values if and only if the edit-mode flag captured by the callback at
subscription time was off (not the flag at delivery time). -/
theorem C6_snapshot_uses_captured_editMode (m : Machine) (sub : Subscription)
    (d : StoreDoc)
    (hsub : m.activeSubs.find? (fun s => s.sid == sub.sid) = some sub)
    (hdoc : m.store.find? (fun x => x.docId == sub.docId) = some d) :
    (deliverSnapshot m sub.sid).patient = some (d.data.withId sub.docId) ∧
    (deliverSnapshot m sub.sid).updateData =
      (if sub.capturedEditMode then m.updateData else UpdateData.ofData d.data) := by
  simp [deliverSnapshot, hsub, hdoc]

/-- Witness for the amended C6: the delivery to `mStale` replaces the
record and mirrors the draft, since listener 0 captured edit mode off. -/
theorem C6_snapshot_uses_captured_editMode_witness :
    mStale.activeSubs.find? (fun s => s.sid == 0) = some ⟨0, "P123", false⟩ ∧
    (deliverSnapshot mStale 0).patient = some (sampleData2.withId "P123") ∧
    (deliverSnapshot mStale 0).updateData = UpdateData.ofData sampleData2 :=
  ⟨by decide,
    by
      have h := C6_snapshot_uses_captured_editMode mStale ⟨0, "P123", false⟩
        ⟨"P123", sampleData2⟩ (by decide) (by decide)
      simpa using h⟩

/-- Claim C7: a toggle that turns edit mode off while a record is
resolved resets the draft to exactly that last server-observed record
(all its fields, id included) and clears the flag. -/
theorem C7_toggle_off_resets_draft (m : Machine) (p : Patient)
    (he : m.editMode = true) (hp : m.patient = some p) :
    (toggleEditMode m).editMode = false ∧
    (toggleEditMode m).updateData = UpdateData.ofPatient p := by
  simp [toggleEditMode, hp, he]

/-- Witness for C7: cancelling the edit on `mStale` restores the draft
from the held record. -/
theorem C7_toggle_off_resets_draft_witness :
    mStale.editMode = true ∧
    (toggleEditMode mStale).updateData =
      UpdateData.ofPatient (sampleData.withId "P123") :=
  ⟨by decide,
    (C7_toggle_off_resets_draft mStale (sampleData.withId "P123")
      (by decide) (by decide)).2⟩

/-- Claim C8: with a resolved record, a failing store update leaves the
whole local state untouched (edit mode, record and draft included) and
shows the generic update-failed toast; a succeeding update exits edit
mode, keeps record and draft, and shows the success toast. -/
theorem C8_submit_failure_preserves_state (m : Machine) (p : Patient) (now : String)
    (hp : m.patient = some p) :
    ((handleUpdatePatient m now false).1 = m ∧
     Event.toast "Error" "Failed to update patient information" ∈
       (handleUpdatePatient m now false).2) ∧
    ((handleUpdatePatient m now true).1.editMode = false ∧
     (handleUpdatePatient m now true).1.patient = m.patient ∧
     (handleUpdatePatient m now true).1.updateData = m.updateData ∧
     Event.toast "Success" "Patient information updated successfully!" ∈
       (handleUpdatePatient m now true).2) := by
  simp [handleUpdatePatient, hp]

/-- Witness for C8: submitting from `mStale` fails harmlessly or
succeeds leaving edit mode. -/
theorem C8_submit_failure_preserves_state_witness :
    mStale.patient = some (sampleData.withId "P123") ∧
    (handleUpdatePatient mStale "2024-06-01" false).1 = mStale ∧
    (handleUpdatePatient mStale "2024-06-01" true).1.editMode = false :=
  ⟨by decide,
    (C8_submit_failure_preserves_state mStale (sampleData.withId "P123") "2024-06-01"
      (by decide)).1.1,
    (C8_submit_failure_preserves_state mStale (sampleData.withId "P123") "2024-06-01"
      (by decide)).2.1⟩

/-- Claim C9: a resolve whose query comes back empty shows the not-found
toast, clears the held record, and leaves no live subscription (the
hypothesis is the reachable-state invariant that every live listener is
the one the stored handle controls). -/
theorem C9_not_found_clears_state (m : Machine) (pid uid : String)
    (hpid : jsTrim pid ≠ "")
    (hq : queryPatients m.store uid pid = [])
    (hown : ∀ s ∈ m.activeSubs, m.unsubscribeSnapshot = some s.sid) :
    (handleSearch m pid (some uid)).1.patient = none ∧
    (handleSearch m pid (some uid)).1.activeSubs = [] ∧
    Event.toast "Not found" "No patient found with that ID" ∈
      (handleSearch m pid (some uid)).2 := by
  refine ⟨?_, ?_, ?_⟩ <;>
    simp [handleSearch, if_neg hpid, hq,
      cancelSub_owned_eq_nil m.activeSubs m.unsubscribeSnapshot hown]

/-- Witness for C9: searching P999 from the subscribed state finds
nothing, clears the record and cancels listener 0. -/
theorem C9_not_found_clears_state_witness :
    queryPatients mSubbed.store "D1" "P999" = [] ∧
    (handleSearch mSubbed "P999" (some "D1")).1.patient = none ∧
    (handleSearch mSubbed "P999" (some "D1")).1.activeSubs = [] :=
  ⟨by decide,
    (C9_not_found_clears_state mSubbed "P999" "D1" (by decide) (by decide)
      (by decide)).1,
    (C9_not_found_clears_state mSubbed "P999" "D1" (by decide) (by decide)
      (by decide)).2.1⟩
